import Mathlib

/-!
Verification development for the MCP-server-with-OAuth demo repository.

The repository consists of an MCP (JSON-RPC over HTTP) server protected by a
bearer-token Auth Gate (src/server.ts, src/server-with-ui.ts, src/lib/auth.ts
plus a refactored auth module), and a separate OAuth 2.0 Authorization Server
implementing dynamic registration, the authorization-code-with-PKCE flow,
token exchange and RFC 7662 introspection.

This file shallowly embeds the request handlers and token-verification
functions as pure Lean functions.  Network effects (fetch of the introspection
endpoint, jose's jwtVerify, the JWKS fetch) are modelled by passing the
outcome of the external call as an explicit argument; randomness (randomUUID,
randomBytes) is modelled by passing the freshly generated value as an
argument; the current clock reading (Date.now()) is an explicit argument.
JavaScript `Map`s become functions `String -> Option _`; JavaScript string
truthiness (empty string is falsy) is modelled explicitly by the js* helpers.
-/

namespace OAuthDemo

/-- JavaScript-style map keyed by strings (models a JS `Map` / plain object
used as a dictionary). -/
def SMap (α : Type) : Type := String → Option α

/-- Models `new Map()` / `{}` : the empty dictionary. -/
def SMap.empty {α : Type} : SMap α := fun _ => none

/-- Models `m.set(k, v)`. -/
def SMap.set {α : Type} (m : SMap α) (k : String) (v : α) : SMap α :=
  fun k' => if k' = k then some v else m k'

/-- Models `m.delete(k)`. -/
def SMap.del {α : Type} (m : SMap α) (k : String) : SMap α :=
  fun k' => if k' = k then none else m k'

/-- Models `m.get(k)` (`undefined` becomes `none`). -/
def SMap.get {α : Type} (m : SMap α) (k : String) : Option α := m k

/-- Models the JavaScript coercion `String(x ?? "")` applied to an optional
string field. -/
def jsStr (o : Option String) : String := o.getD ""

/-- Models JavaScript truthiness of a `string | undefined` value:
`undefined` and the empty string are falsy. -/
def jsTruthy (o : Option String) : Bool :=
  match o with
  | none => false
  | some s => s != ""

/-- Models the JavaScript pattern `x ? String(x) : undefined`: a falsy value
(absent or empty string) becomes `undefined`. -/
def jsOpt (o : Option String) : Option String :=
  match o with
  | none => none
  | some s => if s == "" then none else some s

/-- True when the character list `pat` is an initial segment of `l`. -/
def charListStarts : List Char → List Char → Bool
  | [], _ => true
  | _ :: _, [] => false
  | a :: as, b :: bs => a == b && charListStarts as bs

/-- True when the character list `pat` occurs contiguously inside `l`. -/
def charListHasSub (pat : List Char) : List Char → Bool
  | [] => pat.isEmpty
  | c :: rest => charListStarts pat (c :: rest) || charListHasSub pat rest

/-- Models JavaScript `s.includes(pat)` (substring containment). -/
def strIncludes (s pat : String) : Bool := charListHasSub pat.data s.data

/-- Accumulator-based splitting of a character list on spaces: empty pieces
are preserved, as JavaScript's `split(" ")` does. -/
def jsSplitSpaceAux : List Char → List Char → List String
  | [], acc => [String.mk acc.reverse]
  | c :: rest, acc =>
      if c == ' ' then String.mk acc.reverse :: jsSplitSpaceAux rest []
      else jsSplitSpaceAux rest (c :: acc)

/-- Models JavaScript `s.split(" ")` (single-space separator; the empty
string yields `[""]`, consecutive spaces yield empty pieces). -/
def jsSplitSpace (s : String) : List String := jsSplitSpaceAux s.data []

/-- Models JavaScript `s.toLowerCase()` on ASCII header values. -/
def jsToLower (s : String) : String := String.mk (s.data.map Char.toLower)

/-! ### SHA-256 and base64url (models node:crypto `createHash("sha256")` and
`Buffer.toString("base64")` as used by the OAuth server's PKCE check).
Bytes are `Nat`s below 256, 32-bit words are `Nat`s below 2^32. -/

/-- Truncate to a 32-bit word. -/
def w32 (x : Nat) : Nat := x % 4294967296

/-- Right-rotation of a 32-bit word by `n` places. -/
def rotr32 (n x : Nat) : Nat := w32 ((x >>> n) + ((x % (2 ^ n)) * 2 ^ (32 - n)))

/-- SHA-256 big Sigma-0. -/
def bSig0 (x : Nat) : Nat := (rotr32 2 x) ^^^ (rotr32 13 x) ^^^ (rotr32 22 x)

/-- SHA-256 big Sigma-1. -/
def bSig1 (x : Nat) : Nat := (rotr32 6 x) ^^^ (rotr32 11 x) ^^^ (rotr32 25 x)

/-- SHA-256 small sigma-0. -/
def sSig0 (x : Nat) : Nat := (rotr32 7 x) ^^^ (rotr32 18 x) ^^^ (x >>> 3)

/-- SHA-256 small sigma-1. -/
def sSig1 (x : Nat) : Nat := (rotr32 17 x) ^^^ (rotr32 19 x) ^^^ (x >>> 10)

/-- SHA-256 choice function. -/
def chf (x y z : Nat) : Nat := (x &&& y) ^^^ ((x ^^^ 4294967295) &&& z)

/-- SHA-256 majority function. -/
def majf (x y z : Nat) : Nat := (x &&& y) ^^^ (x &&& z) ^^^ (y &&& z)

/-- The 64 SHA-256 round constants (FIPS 180-4 section 4.2.2, in decimal). -/
def sha256K : List Nat :=
  [1116352408, 1899447441, 3049323471, 3921009573, 961987163, 1508970993,
   2453635748, 2870763221, 3624381080, 310598401, 607225278, 1426881987,
   1925078388, 2162078206, 2614888103, 3248222580, 3835390401, 4022224774,
   264347078, 604807628, 770255983, 1249150122, 1555081692, 1996064986,
   2554220882, 2821834349, 2952996808, 3210313671, 3336571891, 3584528711,
   113926993, 338241895, 666307205, 773529912, 1294757372, 1396182291,
   1695183700, 1986661051, 2177026350, 2456956037, 2730485921, 2820302411,
   3259730800, 3345764771, 3516065817, 3600352804, 4094571909, 275423344,
   430227734, 506948616, 659060556, 883997877, 958139571, 1322822218,
   1537002063, 1747873779, 1955562222, 2024104815, 2227730452, 2361852424,
   2428436474, 2756734187, 3204031479, 3329325298]

/-- The SHA-256 initial hash state (FIPS 180-4 section 5.3.3, in decimal). -/
def sha256H0 : List Nat :=
  [1779033703, 3144134277, 1013904242, 2773480762,
   1359893119, 2600822924, 528734635, 1541459225]

/-- Extend a 16-word message block, appending `fuel` schedule words. -/
def extendW : List Nat → Nat → List Nat
  | w, 0 => w
  | w, Nat.succ k =>
      let n := w.length
      let nw := w32 (sSig1 (w.getD (n - 2) 0) + w.getD (n - 7) 0 +
                     sSig0 (w.getD (n - 15) 0) + w.getD (n - 16) 0)
      extendW (w ++ [nw]) k

/-- One SHA-256 compression round on the 8-word working state. -/
def compressStep (k w : Nat) (st : List Nat) : List Nat :=
  match st with
  | [a, b, c, d, e, f, g, h] =>
      let t1 := w32 (h + bSig1 e + chf e f g + k + w)
      let t2 := w32 (bSig0 a + majf a b c)
      [w32 (t1 + t2), a, b, c, w32 (d + t1), e, f, g]
  | other => other

/-- Compress one 16-word block into the running 8-word hash state. -/
def compressBlock (h : List Nat) (block16 : List Nat) : List Nat :=
  let w := extendW block16 48
  let st := (List.zip sha256K w).foldl (fun st kw => compressStep kw.1 kw.2 st) h
  List.zipWith (fun x y => w32 (x + y)) h st

/-- Big-endian 4-byte groups to 32-bit words. -/
def bytesToWords : List Nat → List Nat
  | b0 :: b1 :: b2 :: b3 :: rest =>
      (b0 * 16777216 + b1 * 65536 + b2 * 256 + b3) :: bytesToWords rest
  | _ => []

/-- Split a word list into 16-word blocks (fuel-driven recursion). -/
def chunk16Fuel : Nat → List Nat → List (List Nat)
  | 0, _ => []
  | _, [] => []
  | Nat.succ k, ws => ws.take 16 :: chunk16Fuel k (ws.drop 16)

/-- Split a word list into 16-word blocks. -/
def chunk16 (ws : List Nat) : List (List Nat) := chunk16Fuel ws.length ws

/-- Big-endian 8-byte encoding of a length in bits. -/
def beBytes8 (n : Nat) : List Nat :=
  [n / 72057594037927936 % 256, n / 281474976710656 % 256,
   n / 1099511627776 % 256, n / 4294967296 % 256,
   n / 16777216 % 256, n / 65536 % 256, n / 256 % 256, n % 256]

/-- SHA-256 message padding: append 0x80, zero bytes to 56 mod 64, then the
bit length as a big-endian 64-bit integer. -/
def padBytes (msg : List Nat) : List Nat :=
  let L := msg.length
  let padZeros := (119 - L % 64) % 64
  msg ++ [128] ++ List.replicate padZeros 0 ++ beBytes8 (L * 8)

/-- A 32-bit word as 4 big-endian bytes. -/
def wordBytes (w : Nat) : List Nat :=
  [w / 16777216 % 256, w / 65536 % 256, w / 256 % 256, w % 256]

/-- SHA-256 of a byte list, as a 32-byte digest. -/
def sha256 (msg : List Nat) : List Nat :=
  let blocks := chunk16 (bytesToWords (padBytes msg))
  let h := blocks.foldl compressBlock sha256H0
  (h.map wordBytes).flatten

/-- UTF-8 encoding of a single character. -/
def utf8Char (c : Char) : List Nat :=
  let n := c.toNat
  if n < 128 then [n]
  else if n < 2048 then [192 + n / 64, 128 + n % 64]
  else if n < 65536 then [224 + n / 4096, 128 + n / 64 % 64, 128 + n % 64]
  else [240 + n / 262144, 128 + n / 4096 % 64, 128 + n / 64 % 64, 128 + n % 64]

/-- UTF-8 encoding of a string as a byte list (models what node's
`hash.update(string)` hashes). -/
def utf8Bytes (s : String) : List Nat := (s.data.map utf8Char).flatten

/-- The standard base64 alphabet. -/
def base64Alphabet : String :=
  "ABCDEFGHIJKLMNOPQRSTUVWXYZabcdefghijklmnopqrstuvwxyz0123456789+/"

/-- The base64 character for a 6-bit value. -/
def b64Char (n : Nat) : Char := base64Alphabet.data.getD n 'A'

/-- Standard base64 encoding (with `=` padding) of a byte list, as the list
of encoded characters.  Models `buffer.toString("base64")`. -/
def base64Chunks : List Nat → List Char
  | b0 :: b1 :: b2 :: rest =>
      b64Char (b0 / 4) :: b64Char (b0 % 4 * 16 + b1 / 16) ::
      b64Char (b1 % 16 * 4 + b2 / 64) :: b64Char (b2 % 64) :: base64Chunks rest
  | [b0, b1] =>
      [b64Char (b0 / 4), b64Char (b0 % 4 * 16 + b1 / 16), b64Char (b1 % 16 * 4), '=']
  | [b0] => [b64Char (b0 / 4), b64Char (b0 % 4 * 16), '=', '=']
  | [] => []

/-- Models the OAuth server's `b64url`: base64-encode, then replace `+` with
`-` and `/` with `_`, and strip trailing `=` padding. -/
def b64url (bs : List Nat) : String :=
  let std := base64Chunks bs
  let repl := std.map (fun c => if c == '+' then '-' else if c == '/' then '_' else c)
  String.mk ((repl.reverse.dropWhile (fun c => c == '=')).reverse)

/-- Models the OAuth server's `pkceChallengeFromVerifier`: base64url of the
SHA-256 digest of the verifier. -/
def pkceChallengeFromVerifier (verifier : String) : String :=
  b64url (sha256 (utf8Bytes verifier))

end OAuthDemo


namespace OAuthDemo

/-! ### OAuth Authorization Server (the demo OAuth server file: in-memory
stores plus the /register, /authorize, /token and /introspect handlers). -/

namespace AuthServer

/-- A registered OAuth client (the server's `Client` type). -/
structure Client where
  client_id : String
  client_secret : Option String
  redirect_uris : List String
  scope : Option String
  token_endpoint_auth_method : Option String
deriving Repr, DecidableEq

/-- A stored authorization code (the server's `CodeRecord` type).
`expiresAt` is in milliseconds, as produced by `Date.now() + 5 * 60_000`. -/
structure CodeRecord where
  client_id : String
  code_challenge : String
  redirect_uri : String
  scopes : List String
  resource : Option String
  expiresAt : Nat
deriving Repr, DecidableEq

/-- A stored access token (the server's `TokenRecord` type).
`exp` is in unix seconds. -/
structure TokenRecord where
  token : String
  client_id : String
  scopes : List String
  resource : Option String
  exp : Nat
deriving Repr, DecidableEq

/-- The OAuth server's module-level mutable stores, grouped into one state:
`clients`, `codes` and `tokens`. -/
structure ServerState where
  clients : SMap Client
  codes : SMap CodeRecord
  tokens : SMap TokenRecord

/-- The query/body parameters read by the /authorize handler, each as the raw
optional string (`undefined` is `none`). -/
structure AuthorizeRequest where
  client_id : Option String
  response_type : Option String
  redirect_uri : Option String
  scope : Option String
  state : Option String
  code_challenge : Option String
  code_challenge_method : Option String
  resource : Option String

/-- Outcome of the /authorize handler: a direct JSON error response, an
error redirect to the validated redirect URI carrying `error`,
`error_description` and the echoed `state` query parameters, or a success
redirect carrying `code` and the echoed `state`. -/
inductive AuthorizeResult where
  | directError (status : Nat) (error : String) (error_description : Option String)
  | errorRedirect (redirect_uri error error_description : String) (state : Option String)
  | successRedirect (redirect_uri code : String) (state : Option String)
deriving Repr, DecidableEq

/-- Models the server's `buildErrorRedirect`: a redirect to `redirect_uri`
whose query string carries `error`, `error_description` and, when present,
`state`. -/
def buildErrorRedirect (redirect_uri error desc : String) (state : Option String) :
    AuthorizeResult :=
  .errorRedirect redirect_uri error desc state

/-- The /authorize handler (GET or POST).  `nowMs` models `Date.now()` and
`freshCode` the `randomUUID()` used for the minted code. -/
def authorizeEndpoint (s : ServerState) (q : AuthorizeRequest) (nowMs : Nat)
    (freshCode : String) : AuthorizeResult × ServerState :=
  let client_id := jsStr q.client_id
  let response_type := jsStr q.response_type
  let redirect_uri := jsStr q.redirect_uri
  let scope := jsStr q.scope
  let state := jsOpt q.state
  let code_challenge := jsStr q.code_challenge
  let ccm := jsStr q.code_challenge_method
  let resource := jsOpt q.resource
  match s.clients.get client_id with
  | none => (.directError 400 "invalid_client" none, s)
  | some client =>
      if redirect_uri == "" || !(client.redirect_uris.contains redirect_uri) then
        (.directError 400 "invalid_request" (some "redirect_uri mismatch"), s)
      else if response_type != "code" then
        (buildErrorRedirect redirect_uri "unsupported_response_type" "Only code supported" state, s)
      else if ccm != "S256" || code_challenge == "" then
        (buildErrorRedirect redirect_uri "invalid_request" "PKCE S256 required" state, s)
      else
        let requested := if scope == "" then [] else jsSplitSpace scope
        let allowed := (jsSplitSpace (jsStr client.scope)).filter (fun x => x != "")
        match requested.find? (fun sc => !(allowed.contains sc)) with
        | some sc =>
            (buildErrorRedirect redirect_uri "invalid_scope" ("scope " ++ sc ++ " not allowed") state, s)
        | none =>
            let codeRec : CodeRecord :=
              { client_id := client_id, code_challenge := code_challenge,
                redirect_uri := redirect_uri, scopes := requested,
                resource := resource, expiresAt := nowMs + 5 * 60000 }
            (.successRedirect redirect_uri freshCode state,
             { s with codes := s.codes.set freshCode codeRec })

/-- The form parameters read by the /token handler, each as the raw optional
string. -/
structure TokenRequest where
  grant_type : Option String
  client_id : Option String
  client_secret : Option String
  code : Option String
  code_verifier : Option String
  redirect_uri : Option String
  resource : Option String

/-- Outcome of the /token handler: a JSON error with an HTTP status, or the
token response. -/
inductive TokenResult where
  | err (status : Nat) (error : String) (error_description : Option String)
  | ok (access_token token_type : String) (expires_in : Nat) (scope : String)
deriving Repr, DecidableEq

/-- Whether a /token outcome is the success response. -/
def TokenResult.isOk : TokenResult → Bool
  | .ok _ _ _ _ => true
  | .err _ _ _ => false

/-- Models the client-secret check of /token:
`if (client.client_secret) if (!client_secret || client_secret !== client.client_secret)`. -/
def secretCheckFails (client : Client) (client_secret : Option String) : Bool :=
  match client.client_secret with
  | none => false
  | some cs => cs != "" && (client_secret.isNone || client_secret != some cs)

/-- Models the /token check `redirect_uri && redirect_uri !== rec.redirect_uri`. -/
def redirectMismatch (codeRec : CodeRecord) (redirect_uri : Option String) : Bool :=
  jsTruthy redirect_uri && redirect_uri != some codeRec.redirect_uri

/-- Models the /token check `resource && rec.resource && resource !== rec.resource`. -/
def resourceMismatch (codeRec : CodeRecord) (resource : Option String) : Bool :=
  jsTruthy resource && jsTruthy codeRec.resource && resource != codeRec.resource

/-- Models the /token PKCE check
`!code_verifier || pkceChallengeFromVerifier(code_verifier) !== rec.code_challenge`. -/
def pkceFails (codeRec : CodeRecord) (code_verifier : String) : Bool :=
  code_verifier == "" || pkceChallengeFromVerifier code_verifier != codeRec.code_challenge

/-- The /token handler (authorization_code + PKCE).  `nowMs` models
`Date.now()` and `freshToken` the `randomUUID()` used for the minted access
token. -/
def tokenEndpoint (s : ServerState) (r : TokenRequest) (nowMs : Nat)
    (freshToken : String) : TokenResult × ServerState :=
  if r.grant_type != some "authorization_code" then
    (.err 400 "unsupported_grant_type" none, s)
  else
    let client_id := jsStr r.client_id
    let client_secret := jsOpt r.client_secret
    let code := jsStr r.code
    let code_verifier := jsStr r.code_verifier
    let redirect_uri := jsOpt r.redirect_uri
    let resource := jsOpt r.resource
    match s.clients.get client_id with
    | none => (.err 400 "invalid_client" none, s)
    | some client =>
        if secretCheckFails client client_secret then
          (.err 401 "invalid_client" none, s)
        else
          match s.codes.get code with
          | none => (.err 400 "invalid_grant" (some "invalid code"), s)
          | some codeRec =>
              if codeRec.expiresAt < nowMs then
                (.err 400 "invalid_grant" (some "code expired"),
                 { s with codes := s.codes.del code })
              else if codeRec.client_id != client_id then
                (.err 400 "invalid_grant" none, s)
              else if redirectMismatch codeRec redirect_uri then
                (.err 400 "invalid_grant" none, s)
              else if resourceMismatch codeRec resource then
                (.err 400 "invalid_target" none, s)
              else if pkceFails codeRec code_verifier then
                (.err 400 "invalid_grant" (some "code_verifier mismatch"), s)
              else
                let exp := nowMs / 1000 + 3600
                let tokenRec : TokenRecord :=
                  { token := freshToken, client_id := client_id,
                    scopes := codeRec.scopes, resource := codeRec.resource, exp := exp }
                (.ok freshToken "bearer" 3600 (String.intercalate " " codeRec.scopes),
                 { s with codes := s.codes.del code,
                          tokens := s.tokens.set freshToken tokenRec })

/-- The active-token metadata returned by /introspect. -/
structure IntrospectActive where
  client_id : String
  scope : String
  exp : Nat
  aud : Option String
deriving Repr, DecidableEq

/-- The /introspect response body: `{active:false}` or the active-token
metadata. -/
inductive IntrospectBody where
  | inactive
  | active (m : IntrospectActive)
deriving Repr, DecidableEq

/-- The /introspect handler: HTTP status paired with the JSON body.  `nowSec`
models `Math.floor(Date.now() / 1000)`. -/
def introspectEndpoint (s : ServerState) (rawToken : Option String) (nowSec : Nat) :
    Nat × IntrospectBody :=
  let token := jsStr rawToken
  match s.tokens.get token with
  | none => (200, .inactive)
  | some tokenRec =>
      if tokenRec.exp ≤ nowSec then (200, .inactive)
      else (200, .active { client_id := tokenRec.client_id,
                           scope := String.intercalate " " tokenRec.scopes,
                           exp := tokenRec.exp, aud := tokenRec.resource })

end AuthServer

end OAuthDemo

namespace OAuthDemo

/-! ### MCP session router (the /mcp handlers of src/server.ts and
src/server-with-ui.ts; the two files' routing code is identical).  A live
`StreamableHTTPServerTransport` is abstracted to its presence in the session
table, since the routing decisions depend only on table membership. -/

namespace McpRouter

/-- The JSON-RPC request body, abstracted to what the routing logic
inspects: the SDK's `isInitializeRequest` discriminates on the method. -/
structure JsonRpcBody where
  method : Option String

/-- Models the MCP SDK's `isInitializeRequest(body)`: whether the body is a
well-formed `initialize` JSON-RPC call. -/
def isInitRequest (b : JsonRpcBody) : Bool := b.method == some "initialize"

/-- The session table `transports` (session id to live transport, with the
transport abstracted away). -/
def SessionTable : Type := SMap Unit

/-- The headers and body of a POST /mcp request. -/
structure McpPostRequest where
  accept : Option String
  sessionId : Option String
  body : JsonRpcBody

/-- Outcome of a POST /mcp request.  `notAcceptable` and `noValidSession`
carry the HTTP status, the JSON-RPC error code, the error message and the
JSON-RPC `id` (`none` models `id: null`); `handled` hands the request to the
live session's transport; `created` creates a new session under the carried
id and returns that id in the `Mcp-Session-Id` response header. -/
inductive McpPostResult where
  | notAcceptable (status : Nat) (code : Int) (message : String) (id : Option Int)
  | handled (sessionId : String)
  | created (sessionId : String)
  | noValidSession (status : Nat) (code : Int) (message : String) (id : Option Int)
deriving Repr, DecidableEq

/-- The session id a POST /mcp outcome created a session under, if any. -/
def McpPostResult.createdId : McpPostResult → Option String
  | .created sid => some sid
  | _ => none

/-- Models the guard `sessionId && transports[sessionId]`. -/
def sessionLive (table : SessionTable) (sessionId : Option String) : Bool :=
  jsTruthy sessionId && (table.get (jsStr sessionId)).isSome

/-- The POST /mcp handler.  `fresh` models the `randomUUID()` that the
transport's `sessionIdGenerator` falls back to; a `created` outcome also
records the new session in the table (the `onsessioninitialized` callback). -/
def mcpPost (table : SessionTable) (r : McpPostRequest) (fresh : String) :
    McpPostResult × SessionTable :=
  let accept := jsStr r.accept
  if !(strIncludes accept "application/json") || !(strIncludes accept "text/event-stream") then
    (.notAcceptable 406 (-32000)
       "Not Acceptable: Client must accept both application/json and text/event-stream" none,
     table)
  else
    let sessionId := r.sessionId
    if sessionLive table sessionId then
      (.handled (jsStr sessionId), table)
    else if !(jsTruthy sessionId) && isInitRequest r.body then
      let requestedSessionId := r.sessionId
      let sid := if jsTruthy requestedSessionId then jsStr requestedSessionId else fresh
      (.created sid, table.set sid ())
    else
      (.noValidSession 400 (-32000) "Bad Request: No valid session ID provided" none, table)

/-- Outcome of a GET or DELETE /mcp request: a plain-text 400 error body, or
delegation to the session's transport. -/
inductive McpStreamResult where
  | badRequest (status : Nat) (textBody : String)
  | handled (sessionId : String)
deriving Repr, DecidableEq

/-- The GET /mcp (SSE subscribe) handler. -/
def mcpGet (table : SessionTable) (sessionId : Option String) : McpStreamResult :=
  if !(sessionLive table sessionId) then .badRequest 400 "Invalid or missing session ID"
  else .handled (jsStr sessionId)

/-- The DELETE /mcp (terminate) handler. -/
def mcpDelete (table : SessionTable) (sessionId : Option String) : McpStreamResult :=
  if !(sessionLive table sessionId) then .badRequest 400 "Invalid or missing session ID"
  else .handled (jsStr sessionId)

end McpRouter

end OAuthDemo

namespace OAuthDemo

/-! ### Token verifier and Auth Gate.  Three embeddings exist in the
repository: the inline introspection-only verifier of src/server.ts, the
two-mode verifier plus middleware of src/lib/auth.ts (used by
src/server-with-ui.ts), and a refactored two-mode auth module with separate
`verifyJwtToken` / `verifyTokenViaIntrospection` helpers.  The network calls
(`fetch` of the introspection endpoint, jose's `jwtVerify` against the JWKS)
are modelled by passing their outcome as an argument. -/

/-- Normalized outcome of token verification. -/
structure AuthResult where
  clientId : String
  scopes : List String
  expiresAt : Int
deriving Repr, DecidableEq

/-- The JSON body returned by the introspection endpoint, as read by the
verifiers (`active`, `client_id`, `scope`, numeric `exp`, `aud`).  A missing
or non-numeric `exp` is `none`. -/
structure IntrospectionData where
  active : Bool
  client_id : Option String
  scope : Option String
  exp : Option Int
  aud : Option String
deriving Repr, DecidableEq

/-- The outcome of the `fetch` to the introspection endpoint: `ok` models
`res.ok`, `status` models `res.status`, `data` the parsed JSON body. -/
structure FetchOutcome where
  ok : Bool
  status : Nat
  data : IntrospectionData
deriving Repr, DecidableEq

/-- The configured token validation mode. -/
inductive TokenMode where
  | introspection
  | jwt
deriving Repr, DecidableEq

/-- The `AuthConfig` interface of the auth modules. -/
structure AuthConfig where
  DISABLE_AUTH : Bool
  AUTH_TOKEN_MODE : TokenMode
  OAUTH_INTROSPECT_URL : String
  JWT_ISSUER : Option String
  JWT_AUDIENCE : Option String
  JWT_JWKS_URL : Option String
deriving Repr, DecidableEq

/-- A JWT `aud` claim: a single string or a list of strings. -/
inductive JsonAud where
  | str (s : String)
  | arr (l : List String)
deriving Repr, DecidableEq

/-- JavaScript truthiness of an optional `aud` claim: absent and the empty
string are falsy; any array (even empty) is truthy. -/
def audTruthy : Option JsonAud → Bool
  | none => false
  | some (.str s) => s != ""
  | some (.arr _) => true

/-- The JWT payload fields read by the verifiers.  `exp` is `none` when the
claim is absent or not a number. -/
structure JwtPayload where
  exp : Option Int
  aud : Option JsonAud
  client_id : Option String
  sub : Option String
  scope : Option String
  scp : Option String
deriving Repr, DecidableEq

/-- Models `parseScopes` (identical in src/lib/auth.ts and the refactored
module): first truthy of `payload.scope` and `payload.scp`, split on spaces,
dropping empty pieces. -/
def parseScopes (payload : JwtPayload) : List String :=
  let raw := if jsTruthy payload.scope then payload.scope
             else if jsTruthy payload.scp then payload.scp
             else none
  match raw with
  | none => []
  | some r => (jsSplitSpace r).filter (fun x => x != "")

/-- Models the client-id fallback chain
`(payload.client_id) || (payload.sub) || "unknown"`. -/
def clientIdOfPayload (payload : JwtPayload) : String :=
  if jsTruthy payload.client_id then jsStr payload.client_id
  else if jsTruthy payload.sub then jsStr payload.sub
  else "unknown"

/-- Models `data.scope ? String(data.scope).split(" ") : []` on an
introspection body. -/
def introspectionScopes (scope : Option String) : List String :=
  match scope with
  | none => []
  | some sc => if sc == "" then [] else jsSplitSpace sc

namespace ServerMain

/-- The inline `verifyAccessToken` of src/server.ts (introspection only).
`REQUIRE_AUTH` is `!DISABLE_AUTH` as at the top of the file; `fetched` is the
outcome of the POST to the introspection endpoint; `nowSec` models
`Math.floor(Date.now() / 1000)`. -/
def verifyAccessToken (token : String) (DISABLE_AUTH : Bool) (fetched : FetchOutcome)
    (expectedResource : Option String) (nowSec : Int) : Except String AuthResult :=
  let REQUIRE_AUTH := !DISABLE_AUTH
  if !REQUIRE_AUTH then
    .ok { clientId := "dev", scopes := [], expiresAt := nowSec + 3600 }
  else if !fetched.ok then
    .error ("Introspection failed: " ++ toString fetched.status)
  else if !fetched.data.active then
    .error "Token inactive"
  else if jsTruthy expectedResource && jsTruthy fetched.data.aud
          && fetched.data.aud != expectedResource then
    .error "Token not intended for this resource"
  else
    .ok { clientId := fetched.data.client_id.getD "unknown",
          scopes := introspectionScopes fetched.data.scope,
          expiresAt := fetched.data.exp.getD (nowSec + 3600) }

end ServerMain

namespace LibAuth

/-- Models the aud check of src/lib/auth.ts's JWT branch:
`payload.aud && typeof payload.aud === "string" && payload.aud !== expectedResource`. -/
def audStringMismatch (aud : Option JsonAud) (expectedResource : Option String) : Bool :=
  match aud with
  | some (.str s) => s != "" && some s != expectedResource
  | _ => false

/-- The `verifyAccessToken` of src/lib/auth.ts (two modes).  Note the guard
on the first line is `if (!config.DISABLE_AUTH)`, returning the synthetic
"dev" principal exactly when the disable-auth flag is FALSE. -/
def verifyAccessToken (token : String) (config : AuthConfig)
    (jwtVerifyOutcome : Except String JwtPayload) (fetched : FetchOutcome)
    (expectedResource : Option String) (nowSec : Int) : Except String AuthResult :=
  if !config.DISABLE_AUTH then
    .ok { clientId := "dev", scopes := [], expiresAt := nowSec + 3600 }
  else if config.AUTH_TOKEN_MODE == .jwt then
    if !(jsTruthy config.JWT_JWKS_URL) then
      .error "JWT_JWKS_URL or JWT_ISSUER required for JWT mode"
    else
      match jwtVerifyOutcome with
      | .error e => .error e
      | .ok payload =>
          let scopes := parseScopes payload
          let exp := payload.exp.getD (nowSec + 3600)
          if jsTruthy expectedResource && audStringMismatch payload.aud expectedResource then
            .error "Token not intended for this resource"
          else
            .ok { clientId := clientIdOfPayload payload, scopes := scopes, expiresAt := exp }
  else
    if !fetched.ok then
      .error ("Introspection failed: " ++ toString fetched.status)
    else if !fetched.data.active then
      .error "Token inactive"
    else if jsTruthy expectedResource && jsTruthy fetched.data.aud
            && fetched.data.aud != expectedResource then
      .error "Token not intended for this resource"
    else
      .ok { clientId := fetched.data.client_id.getD "unknown",
            scopes := introspectionScopes fetched.data.scope,
            expiresAt := fetched.data.exp.getD (nowSec + 3600) }

/-- Outcome of the Auth Gate middleware: pass the request on (with the
principal attached to `req.auth`, or no principal when the gate is globally
skipped), or reject with HTTP 401 plus a `WWW-Authenticate` challenge. -/
inductive GateOutcome where
  | next (auth : Option AuthResult)
  | unauthorized (error : String) (message : Option String)
deriving Repr, DecidableEq

/-- The middleware returned by src/lib/auth.ts's `createAuthMiddleware`.
`baseUrl` models the protocol/host derived from the request;
`authorizationHeader` is the raw `Authorization` header. -/
def createAuthMiddleware (config : AuthConfig) (baseUrl : String)
    (authorizationHeader : Option String)
    (jwtVerifyOutcome : Except String JwtPayload) (fetched : FetchOutcome)
    (nowSec : Int) : GateOutcome :=
  if config.DISABLE_AUTH then .next none
  else
    let expectedResource :=
      if jsTruthy config.JWT_AUDIENCE then jsStr config.JWT_AUDIENCE else baseUrl ++ "/mcp"
    match authorizationHeader with
    | none => .unauthorized "missing_authorization" none
    | some auth =>
        if auth == "" then .unauthorized "missing_authorization" none
        else
          let parts := jsSplitSpace auth
          let ty := jsStr parts[0]?
          let token := parts[1]?
          if !(jsTruthy token) || jsToLower ty != "bearer" then
            .unauthorized "invalid_authorization" none
          else
            match verifyAccessToken (jsStr token) config jwtVerifyOutcome fetched
                    (some expectedResource) nowSec with
            | .error e => .unauthorized "invalid_token" (some e)
            | .ok info =>
                if info.expiresAt < nowSec then .unauthorized "token_expired" none
                else .next (some info)

end LibAuth

namespace AuthRefactor

/-- Models the aud check of the refactored module's `verifyJwtToken`:
`audiences = Array.isArray(aud) ? aud : [aud]; !audiences.includes(expectedResource)`. -/
def audListMismatch (aud : Option JsonAud) (expectedResource : Option String) : Bool :=
  audTruthy aud &&
    (let audiences := match aud with
                      | some (.arr l) => l
                      | some (.str s) => [s]
                      | none => []
     !(audiences.contains (jsStr expectedResource)))

/-- The refactored module's `verifyJwtToken`: requires a numeric `exp` claim
to be present and fails outright otherwise. -/
def verifyJwtToken (token : String) (config : AuthConfig)
    (jwtVerifyOutcome : Except String JwtPayload) (expectedResource : Option String) :
    Except String AuthResult :=
  if !(jsTruthy config.JWT_JWKS_URL) then
    .error "JWT_JWKS_URL or JWT_ISSUER required for JWT mode"
  else
    match jwtVerifyOutcome with
    | .error e => .error e
    | .ok payload =>
        let scopes := parseScopes payload
        match payload.exp with
        | none => .error "Token missing required exp claim"
        | some expiresAt =>
            if jsTruthy expectedResource && audListMismatch payload.aud expectedResource then
              .error "Token not intended for this resource"
            else
              .ok { clientId := clientIdOfPayload payload, scopes := scopes,
                    expiresAt := expiresAt }

/-- The refactored module's `verifyTokenViaIntrospection`: substitutes a
default one-hour expiry when the introspection body lacks a numeric `exp`. -/
def verifyTokenViaIntrospection (token : String) (config : AuthConfig)
    (fetched : FetchOutcome) (expectedResource : Option String) (nowSec : Int) :
    Except String AuthResult :=
  if !fetched.ok then
    .error ("Introspection failed: " ++ toString fetched.status)
  else if !fetched.data.active then
    .error "Token inactive"
  else if jsTruthy expectedResource && jsTruthy fetched.data.aud
          && fetched.data.aud != expectedResource then
    .error "Token not intended for this resource"
  else
    .ok { clientId := fetched.data.client_id.getD "unknown",
          scopes := introspectionScopes fetched.data.scope,
          expiresAt := fetched.data.exp.getD (nowSec + 3600) }

/-- The refactored module's `verifyAccessToken`: synthetic principal exactly
when the disable-auth flag is TRUE, otherwise dispatch on the mode. -/
def verifyAccessToken (token : String) (config : AuthConfig)
    (jwtVerifyOutcome : Except String JwtPayload) (fetched : FetchOutcome)
    (expectedResource : Option String) (nowSec : Int) : Except String AuthResult :=
  if config.DISABLE_AUTH then
    .ok { clientId := "dev", scopes := [], expiresAt := nowSec + 3600 }
  else if config.AUTH_TOKEN_MODE == .jwt then
    verifyJwtToken token config jwtVerifyOutcome expectedResource
  else
    verifyTokenViaIntrospection token config fetched expectedResource nowSec

end AuthRefactor

end OAuthDemo

namespace OAuthDemo

/-! ### Concrete instances used by witnesses and counterexamples. -/

/-- A registered public client (`token_endpoint_auth_method: "none"`, so no
secret), as produced by /register. -/
def demoClient : AuthServer.Client :=
  { client_id := "c1", client_secret := none, redirect_uris := ["https://a/cb"],
    scope := some "mcp:tools openid", token_endpoint_auth_method := some "none" }

/-- A stored authorization code for `demoClient` whose challenge is the
digest of the verifier "ver"; expires at t = 300000 ms. -/
def demoCodeRec : AuthServer.CodeRecord :=
  { client_id := "c1", code_challenge := pkceChallengeFromVerifier "ver",
    redirect_uri := "https://a/cb", scopes := ["mcp:tools"], resource := none,
    expiresAt := 300000 }

/-- OAuth server state holding `demoClient` and `demoCodeRec` under code
"code1". -/
def demoServerState : AuthServer.ServerState :=
  { clients := SMap.empty.set "c1" demoClient,
    codes := SMap.empty.set "code1" demoCodeRec,
    tokens := SMap.empty }

/-- A /token request redeeming "code1" with the correct verifier "ver". -/
def demoTokenRequest : AuthServer.TokenRequest :=
  { grant_type := some "authorization_code", client_id := some "c1",
    client_secret := none, code := some "code1", code_verifier := some "ver",
    redirect_uri := none, resource := none }

/-- A stored authorization code whose challenge is the digest of the EMPTY
verifier (a client may legitimately register this challenge string at
/authorize, since the challenge itself is non-empty). -/
def emptyVerifierCodeRec : AuthServer.CodeRecord :=
  { client_id := "c1", code_challenge := pkceChallengeFromVerifier "",
    redirect_uri := "https://a/cb", scopes := [], resource := none,
    expiresAt := 300000 }

/-- OAuth server state holding `demoClient` and `emptyVerifierCodeRec` under
code "k". -/
def emptyVerifierState : AuthServer.ServerState :=
  { clients := SMap.empty.set "c1" demoClient,
    codes := SMap.empty.set "k" emptyVerifierCodeRec,
    tokens := SMap.empty }

/-- A /token request redeeming "k" with the empty verifier, whose digest
equals the stored challenge. -/
def emptyVerifierTokenRequest : AuthServer.TokenRequest :=
  { grant_type := some "authorization_code", client_id := some "c1",
    client_secret := none, code := some "k", code_verifier := some "",
    redirect_uri := none, resource := none }

/-- An /authorize request from `demoClient` with a redirect URI that is not
in the client's registered set. -/
def wrongRedirectAuthorizeRequest : AuthServer.AuthorizeRequest :=
  { client_id := some "c1", response_type := some "code",
    redirect_uri := some "https://b/cb", scope := some "mcp:tools",
    state := some "xyz", code_challenge := some "challenge-string",
    code_challenge_method := some "S256", resource := none }

/-- An /authorize request from `demoClient` with a valid redirect URI but the
wrong response type. -/
def wrongResponseTypeAuthorizeRequest : AuthServer.AuthorizeRequest :=
  { client_id := some "c1", response_type := some "token",
    redirect_uri := some "https://a/cb", scope := some "mcp:tools",
    state := some "xyz", code_challenge := some "challenge-string",
    code_challenge_method := some "S256", resource := none }

/-- A fully valid /authorize request from `demoClient`. -/
def validAuthorizeRequest : AuthServer.AuthorizeRequest :=
  { client_id := some "c1", response_type := some "code",
    redirect_uri := some "https://a/cb", scope := some "mcp:tools",
    state := some "xyz", code_challenge := some "challenge-string",
    code_challenge_method := some "S256", resource := none }

/-- A server state with one live token ("live-tok", expiring at 2000 s) and
one expired token ("old-tok", expired at 1000 s). -/
def introspectionServerState : AuthServer.ServerState :=
  { clients := SMap.empty,
    codes := SMap.empty,
    tokens := (SMap.empty.set "live-tok"
                { token := "live-tok", client_id := "c1", scopes := ["mcp:tools"],
                  resource := some "http://localhost:3000/mcp", exp := 2000 }).set "old-tok"
                { token := "old-tok", client_id := "c1", scopes := [],
                  resource := none, exp := 1000 } }

/-- Auth configuration with the disable-auth flag FALSE (auth meant to be
enforced) in introspection mode. -/
def cfgAuthEnabled : AuthConfig :=
  { DISABLE_AUTH := false, AUTH_TOKEN_MODE := .introspection,
    OAUTH_INTROSPECT_URL := "http://localhost:3001/introspect",
    JWT_ISSUER := none, JWT_AUDIENCE := none, JWT_JWKS_URL := none }

/-- Auth configuration in JWT mode with a JWKS URL configured (the
disable-auth flag is TRUE, which is the only way src/lib/auth.ts ever reaches
its JWT branch). -/
def cfgJwtMode : AuthConfig :=
  { DISABLE_AUTH := true, AUTH_TOKEN_MODE := .jwt,
    OAUTH_INTROSPECT_URL := "http://localhost:3001/introspect",
    JWT_ISSUER := some "https://issuer.example", JWT_AUDIENCE := none,
    JWT_JWKS_URL := some "https://issuer.example/.well-known/jwks.json" }

/-- An introspection response reporting the token INACTIVE (e.g. an invalid,
revoked or never-issued opaque token). -/
def inactiveFetch : FetchOutcome :=
  { ok := true, status := 200,
    data := { active := false, client_id := none, scope := none, exp := none, aud := none } }

/-- An introspection response reporting the token ACTIVE but carrying no
numeric `exp`. -/
def activeNoExpFetch : FetchOutcome :=
  { ok := true, status := 200,
    data := { active := true, client_id := some "c1", scope := some "mcp:tools",
              exp := none, aud := none } }

/-- A JWT payload that passed signature/issuer/audience verification but
carries no `exp` claim. -/
def payloadNoExp : JwtPayload :=
  { exp := none, aud := none, client_id := some "client-1", sub := none,
    scope := some "mcp:tools", scp := none }

/-- A well-formed `initialize` JSON-RPC body. -/
def initBody : McpRouter.JsonRpcBody := { method := some "initialize" }

/-- A `tools/list` JSON-RPC body (not an initialization request). -/
def toolsListBody : McpRouter.JsonRpcBody := { method := some "tools/list" }

/-- A POST /mcp request with the correct Accept header, a suggested session
id "restart-1" in the `Mcp-Session-Id` header, and an `initialize` body. -/
def suggestedIdInitRequest : McpRouter.McpPostRequest :=
  { accept := some "application/json, text/event-stream",
    sessionId := some "restart-1", body := initBody }

/-- A POST /mcp request with the correct Accept header, no session id and a
non-initialization body. -/
def noSessionToolsRequest : McpRouter.McpPostRequest :=
  { accept := some "application/json, text/event-stream",
    sessionId := none, body := toolsListBody }

/-- A POST /mcp `initialize` request with `Accept: */*`. -/
def starAcceptInitRequest : McpRouter.McpPostRequest :=
  { accept := some "*/*", sessionId := none, body := initBody }

end OAuthDemo

namespace OAuthDemo

/-! ### Helper lemmas. -/

/-- Deleting a key makes its lookup fail. -/
theorem SMap.get_del_self {α : Type} (m : SMap α) (k : String) : (m.del k).get k = none := by
  simp [SMap.del, SMap.get]

/-! ### Claim theorems. -/

/-- C7: for every POST /mcp request whose Accept header does not include both
application/json and text/event-stream, the server returns HTTP 406 with a
JSON-RPC error body carrying code -32000 and id null, before any session
routing or creation logic runs: the outcome is the 406 response for every
body (initialization included) and the session table is untouched. -/
theorem mcp_post_accept_gate (table : McpRouter.SessionTable)
    (r : McpRouter.McpPostRequest) (fresh : String)
    (h : strIncludes (jsStr r.accept) "application/json" = false
       ∨ strIncludes (jsStr r.accept) "text/event-stream" = false) :
    McpRouter.mcpPost table r fresh
      = (.notAcceptable 406 (-32000)
           "Not Acceptable: Client must accept both application/json and text/event-stream" none,
         table) := by
  unfold McpRouter.mcpPost
  rcases h with h | h <;> simp [h]

/-- Witness for C7: the concrete request `Accept: */*` with an `initialize`
body and no session id is refused with the 406 JSON-RPC error. -/
theorem mcp_post_accept_gate_witness :
    (strIncludes (jsStr starAcceptInitRequest.accept) "application/json" = false
       ∨ strIncludes (jsStr starAcceptInitRequest.accept) "text/event-stream" = false)
    ∧ McpRouter.mcpPost SMap.empty starAcceptInitRequest "u1"
        = (.notAcceptable 406 (-32000)
             "Not Acceptable: Client must accept both application/json and text/event-stream" none,
           SMap.empty) :=
  ⟨Or.inl (by decide),
   mcp_post_accept_gate SMap.empty starAcceptInitRequest "u1" (Or.inl (by decide))⟩

/-- C8: for every /mcp request whose session id is missing or does not
resolve to a live session: a POST that is not a well-formed initialization
call fails with HTTP 400 and a JSON-RPC error envelope (code -32000,
id null), while a GET or DELETE fails with HTTP 400 and a plain-text
(non-JSON) body. -/
theorem mcp_no_session_errors :
    (∀ (table : McpRouter.SessionTable) (r : McpRouter.McpPostRequest) (fresh : String),
       strIncludes (jsStr r.accept) "application/json" = true →
       strIncludes (jsStr r.accept) "text/event-stream" = true →
       McpRouter.sessionLive table r.sessionId = false →
       McpRouter.isInitRequest r.body = false →
       McpRouter.mcpPost table r fresh
         = (.noValidSession 400 (-32000) "Bad Request: No valid session ID provided" none, table))
    ∧ (∀ (table : McpRouter.SessionTable) (sid : Option String),
       McpRouter.sessionLive table sid = false →
       McpRouter.mcpGet table sid = .badRequest 400 "Invalid or missing session ID"
       ∧ McpRouter.mcpDelete table sid = .badRequest 400 "Invalid or missing session ID") := by
  constructor
  · intro table r fresh h1 h2 h3 h4
    unfold McpRouter.mcpPost
    simp [h1, h2, h3, h4]
  · intro table sid h
    unfold McpRouter.mcpGet McpRouter.mcpDelete
    simp [h]

/-- Witness for C8: a `tools/list` POST with no session id is rejected with
the 400 JSON-RPC envelope, and GET/DELETE with an unknown session id are
rejected with the plain-text 400 body. -/
theorem mcp_no_session_errors_witness :
    McpRouter.mcpPost SMap.empty noSessionToolsRequest "u2"
      = (.noValidSession 400 (-32000) "Bad Request: No valid session ID provided" none, SMap.empty)
    ∧ (McpRouter.mcpGet SMap.empty (some "ghost") = .badRequest 400 "Invalid or missing session ID"
       ∧ McpRouter.mcpDelete SMap.empty (some "ghost") = .badRequest 400 "Invalid or missing session ID") :=
  ⟨mcp_no_session_errors.1 SMap.empty noSessionToolsRequest "u2"
     (by decide) (by decide) (by decide) (by decide),
   mcp_no_session_errors.2 SMap.empty (some "ghost") (by decide)⟩

/-- C5 (code bug): a POST /mcp initialization request that supplies a
suggested session id in the Mcp-Session-Id header (with no live session under
that id) is answered with HTTP 400 instead of creating the session under the
suggested id, and in general every session the router creates is keyed by the
freshly generated id, never by a caller-suggested one: the suggested-id
branch of the generator is unreachable, because the initialization branch
requires the same header to be absent. -/
theorem suggested_session_id_not_honored :
    (McpRouter.mcpPost SMap.empty suggestedIdInitRequest "fresh-uuid").1
        = .noValidSession 400 (-32000) "Bad Request: No valid session ID provided" none
    ∧ ∀ (table : McpRouter.SessionTable) (r : McpRouter.McpPostRequest) (fresh : String),
        ((McpRouter.mcpPost table r fresh).1).createdId = none
        ∨ ((McpRouter.mcpPost table r fresh).1).createdId = some fresh := by
  constructor
  · decide
  · intro table r fresh
    cases hA : strIncludes (jsStr r.accept) "application/json" <;>
    cases hB : strIncludes (jsStr r.accept) "text/event-stream" <;>
    cases hL : McpRouter.sessionLive table r.sessionId <;>
    cases hT : jsTruthy r.sessionId <;>
    cases hI : McpRouter.isInitRequest r.body <;>
    simp [McpRouter.mcpPost, McpRouter.McpPostResult.createdId, hA, hB, hL, hT, hI]

/-- C1 (code bug): with the disable-auth flag FALSE and an introspection
outcome reporting the token inactive, the lib/auth.ts verifier returns the
synthetic "dev" principal instead of failing, and the Auth Gate middleware
built on it accepts the request (no 401); the inline server.ts verifier and
the refactored module reject the same token with "Token inactive". -/
theorem auth_gate_bypassed_when_enabled :
    LibAuth.verifyAccessToken "invalid-token" cfgAuthEnabled (.error "jwt unused") inactiveFetch
        (some "http://localhost:3000/mcp") 1700000000
      = .ok { clientId := "dev", scopes := [], expiresAt := 1700003600 }
    ∧ LibAuth.createAuthMiddleware cfgAuthEnabled "http://localhost:3000"
        (some "Bearer invalid-token") (.error "jwt unused") inactiveFetch 1700000000
      = .next (some { clientId := "dev", scopes := [], expiresAt := 1700003600 })
    ∧ ServerMain.verifyAccessToken "invalid-token" false inactiveFetch
        (some "http://localhost:3000/mcp") 1700000000
      = .error "Token inactive"
    ∧ AuthRefactor.verifyAccessToken "invalid-token" cfgAuthEnabled (.error "jwt unused")
        inactiveFetch (some "http://localhost:3000/mcp") 1700000000
      = .error "Token inactive" := by
  exact ⟨rfl, rfl, rfl, rfl⟩

/-- Counterexample for C6: in JWT mode, a payload that passed signature,
issuer and audience verification but lacks an `exp` claim is ACCEPTED by the
src/lib/auth.ts JWT branch, which substitutes the default one-hour expiry
instead of failing outright. -/
theorem lib_jwt_missing_exp_accepted :
    payloadNoExp.exp = none
    ∧ LibAuth.verifyAccessToken "jwt-token" cfgJwtMode (.ok payloadNoExp) inactiveFetch
        none 1700000000
      = .ok { clientId := "client-1", scopes := ["mcp:tools"], expiresAt := 1700003600 } :=
  ⟨rfl, rfl⟩

/-- C6 (amended): the refactored module's `verifyJwtToken` fails outright
with "Token missing required exp claim" whenever the verified payload lacks a
numeric `exp` (never substituting a default), whereas the introspection path
accepts an active response without a numeric `exp` by substituting the
default one-hour expiry; the inline JWT branch of src/lib/auth.ts substitutes
the same default instead of failing. -/
theorem jwt_requires_exp_amended :
    (∀ (config : AuthConfig) (payload : JwtPayload) (er : Option String) (tok : String),
       jsTruthy config.JWT_JWKS_URL = true →
       payload.exp = none →
       AuthRefactor.verifyJwtToken tok config (.ok payload) er
         = .error "Token missing required exp claim")
    ∧ (∀ (config : AuthConfig) (fetched : FetchOutcome) (er : Option String) (tok : String)
         (nowSec : Int),
       fetched.ok = true →
       fetched.data.active = true →
       fetched.data.exp = none →
       (jsTruthy er && jsTruthy fetched.data.aud && fetched.data.aud != er) = false →
       AuthRefactor.verifyTokenViaIntrospection tok config fetched er nowSec
         = .ok { clientId := fetched.data.client_id.getD "unknown",
                 scopes := introspectionScopes fetched.data.scope,
                 expiresAt := nowSec + 3600 }) := by
  constructor
  · intro config payload er tok h1 h2
    unfold AuthRefactor.verifyJwtToken
    simp [h1, h2]
  · intro config fetched er tok nowSec h1 h2 h3 h4
    unfold AuthRefactor.verifyTokenViaIntrospection
    simp [h1, h2, h3, h4]

/-- Witness for C6 (amended): the refactored JWT verifier rejects the
exp-less payload that lib/auth.ts accepted, and the refactored introspection
verifier accepts an active exp-less response with the default expiry. -/
theorem jwt_requires_exp_amended_witness :
    AuthRefactor.verifyJwtToken "jwt-token" cfgJwtMode (.ok payloadNoExp) none
      = .error "Token missing required exp claim"
    ∧ AuthRefactor.verifyTokenViaIntrospection "opaque-token" cfgAuthEnabled activeNoExpFetch
        none 1700000000
      = .ok { clientId := "c1", scopes := ["mcp:tools"], expiresAt := 1700003600 } := by
  constructor
  · exact jwt_requires_exp_amended.1 cfgJwtMode payloadNoExp none "jwt-token" (by decide) rfl
  · simpa using jwt_requires_exp_amended.2 cfgAuthEnabled activeNoExpFetch none "opaque-token"
      1700000000 (by decide) (by decide) rfl (by decide)

/-- C9: the /introspect endpoint always answers HTTP 200 and never an error:
an unknown token (including a missing or malformed one, which looks up the
same way) and an expired token both yield the indistinguishable body
`{active:false}`, while a live token yields the active metadata (client id,
space-joined scope, expiry, and the bound resource as `aud`). -/
theorem introspect_never_errors :
    ∀ (s : AuthServer.ServerState) (rawToken : Option String) (nowSec : Nat),
      (AuthServer.introspectEndpoint s rawToken nowSec).1 = 200
      ∧ (s.tokens.get (jsStr rawToken) = none →
          (AuthServer.introspectEndpoint s rawToken nowSec).2 = .inactive)
      ∧ (∀ tokenRec, s.tokens.get (jsStr rawToken) = some tokenRec →
          tokenRec.exp ≤ nowSec →
          (AuthServer.introspectEndpoint s rawToken nowSec).2 = .inactive)
      ∧ (∀ tokenRec, s.tokens.get (jsStr rawToken) = some tokenRec →
          nowSec < tokenRec.exp →
          (AuthServer.introspectEndpoint s rawToken nowSec).2
            = .active { client_id := tokenRec.client_id,
                        scope := String.intercalate " " tokenRec.scopes,
                        exp := tokenRec.exp, aud := tokenRec.resource }) := by
  intro s rawToken nowSec
  refine ⟨?_, ?_, ?_, ?_⟩
  · unfold AuthServer.introspectEndpoint
    cases h : s.tokens.get (jsStr rawToken)
    · simp [h]
    · simp only [h]
      split <;> rfl
  · intro h
    unfold AuthServer.introspectEndpoint
    simp [h]
  · intro tokenRec h hexp
    unfold AuthServer.introspectEndpoint
    simp [h, hexp]
  · intro tokenRec h hexp
    unfold AuthServer.introspectEndpoint
    simp [h, Nat.not_le.mpr hexp]

/-- Witness for C9: with one live and one expired stored token, the endpoint
answers 200 with `{active:false}` for an unknown token and for the expired
token, and the active metadata for the live token. -/
theorem introspect_never_errors_witness :
    (AuthServer.introspectEndpoint introspectionServerState (some "ghost-tok") 1500).1 = 200
    ∧ (AuthServer.introspectEndpoint introspectionServerState (some "ghost-tok") 1500).2 = .inactive
    ∧ (AuthServer.introspectEndpoint introspectionServerState (some "old-tok") 1500).2 = .inactive
    ∧ (AuthServer.introspectEndpoint introspectionServerState (some "live-tok") 1500).2
        = .active { client_id := "c1", scope := "mcp:tools", exp := 2000,
                    aud := some "http://localhost:3000/mcp" } := by
  refine ⟨(introspect_never_errors introspectionServerState (some "ghost-tok") 1500).1,
          (introspect_never_errors introspectionServerState (some "ghost-tok") 1500).2.1 (by decide),
          (introspect_never_errors introspectionServerState (some "old-tok") 1500).2.2.1
            { token := "old-tok", client_id := "c1", scopes := [], resource := none, exp := 1000 }
            (by decide) (by decide),
          ?_⟩
  have h := (introspect_never_errors introspectionServerState (some "live-tok") 1500).2.2.2
      { token := "live-tok", client_id := "c1", scopes := ["mcp:tools"],
        resource := some "http://localhost:3000/mcp", exp := 2000 } (by decide) (by decide)
  simpa using h

end OAuthDemo

namespace OAuthDemo

/-- C4: the /authorize endpoint answers an unknown client or an unregistered
redirect URI with a direct HTTP 400 JSON error (never a redirect), and once
the redirect URI is confirmed registered, every later validation failure
(wrong response type, bad PKCE, disallowed scope) is delivered as a redirect
to that URI carrying `error`, `error_description` and the echoed `state`,
and the only other outcome is the success redirect to that URI. -/
theorem authorize_redirect_discipline :
    (∀ (s : AuthServer.ServerState) (q : AuthServer.AuthorizeRequest)
       (nowMs : Nat) (freshCode : String),
       s.clients.get (jsStr q.client_id) = none →
       AuthServer.authorizeEndpoint s q nowMs freshCode
         = (.directError 400 "invalid_client" none, s))
    ∧ (∀ (s : AuthServer.ServerState) (q : AuthServer.AuthorizeRequest)
         (nowMs : Nat) (freshCode : String) (client : AuthServer.Client),
       s.clients.get (jsStr q.client_id) = some client →
       (jsStr q.redirect_uri = ""
          ∨ client.redirect_uris.contains (jsStr q.redirect_uri) = false) →
       AuthServer.authorizeEndpoint s q nowMs freshCode
         = (.directError 400 "invalid_request" (some "redirect_uri mismatch"), s))
    ∧ (∀ (s : AuthServer.ServerState) (q : AuthServer.AuthorizeRequest)
         (nowMs : Nat) (freshCode : String) (client : AuthServer.Client),
       s.clients.get (jsStr q.client_id) = some client →
       jsStr q.redirect_uri ≠ "" →
       client.redirect_uris.contains (jsStr q.redirect_uri) = true →
       (∃ e d, (AuthServer.authorizeEndpoint s q nowMs freshCode).1
                 = .errorRedirect (jsStr q.redirect_uri) e d (jsOpt q.state))
       ∨ (AuthServer.authorizeEndpoint s q nowMs freshCode).1
           = .successRedirect (jsStr q.redirect_uri) freshCode (jsOpt q.state)) := by
  refine ⟨?_, ?_, ?_⟩
  · intro s q nowMs freshCode h
    unfold AuthServer.authorizeEndpoint
    simp [h]
  · intro s q nowMs freshCode client hc hbad
    unfold AuthServer.authorizeEndpoint
    rcases hbad with hbad | hbad
    · simp [hc, hbad]
    · simp at hbad
      simp [hc, hbad]
  · intro s q nowMs freshCode client hc hne hcont
    unfold AuthServer.authorizeEndpoint
    simp only [hc, hcont, beq_iff_eq, hne, Bool.not_true, Bool.or_false, if_false,
               AuthServer.buildErrorRedirect]
    split
    · exact Or.inl ⟨"unsupported_response_type", "Only code supported", rfl⟩
    · split
      · exact Or.inl ⟨"invalid_request", "PKCE S256 required", rfl⟩
      · split
        · rename_i sc hsc
          exact Or.inl ⟨"invalid_scope", "scope " ++ sc ++ " not allowed", rfl⟩
        · exact Or.inr rfl

end OAuthDemo

namespace OAuthDemo

/-- Witness for C4: an unknown client gets the direct invalid_client 400; a
registered client with an unregistered redirect URI gets the direct 400 with
no redirect; with a valid redirect URI the outcome is an error redirect or
the success redirect to that URI. -/
theorem authorize_redirect_discipline_witness :
    AuthServer.authorizeEndpoint introspectionServerState wrongRedirectAuthorizeRequest 0 "code9"
      = (.directError 400 "invalid_client" none, introspectionServerState)
    ∧ AuthServer.authorizeEndpoint demoServerState wrongRedirectAuthorizeRequest 0 "code9"
      = (.directError 400 "invalid_request" (some "redirect_uri mismatch"), demoServerState)
    ∧ ((∃ e d, (AuthServer.authorizeEndpoint demoServerState wrongResponseTypeAuthorizeRequest 0 "code9").1
                 = .errorRedirect (jsStr wrongResponseTypeAuthorizeRequest.redirect_uri) e d
                     (jsOpt wrongResponseTypeAuthorizeRequest.state))
       ∨ (AuthServer.authorizeEndpoint demoServerState wrongResponseTypeAuthorizeRequest 0 "code9").1
           = .successRedirect (jsStr wrongResponseTypeAuthorizeRequest.redirect_uri) "code9"
               (jsOpt wrongResponseTypeAuthorizeRequest.state)) :=
  ⟨authorize_redirect_discipline.1 introspectionServerState wrongRedirectAuthorizeRequest 0 "code9"
     (by decide),
   authorize_redirect_discipline.2.1 demoServerState wrongRedirectAuthorizeRequest 0 "code9"
     demoClient (by decide) (Or.inr (by decide)),
   authorize_redirect_discipline.2.2 demoServerState wrongResponseTypeAuthorizeRequest 0 "code9"
     demoClient (by decide) (by decide) (by decide)⟩

/-- Case analysis of the /token handler: either the exchange fully succeeds
(the code was present and unexpired, it is deleted, the token is stored), or
the code was present but expired (it is deleted, no token stored), or the
handler fails with the stores untouched. -/
theorem tokenEndpoint_cases (s : AuthServer.ServerState) (r : AuthServer.TokenRequest)
    (n : Nat) (t : String) :
    (∃ codeRec,
        s.codes.get (jsStr r.code) = some codeRec
      ∧ ¬(codeRec.expiresAt < n)
      ∧ (AuthServer.tokenEndpoint s r n t).1
          = .ok t "bearer" 3600 (String.intercalate " " codeRec.scopes)
      ∧ (AuthServer.tokenEndpoint s r n t).2
          = { s with codes := s.codes.del (jsStr r.code),
                     tokens := s.tokens.set t
                       { token := t, client_id := jsStr r.client_id,
                         scopes := codeRec.scopes, resource := codeRec.resource,
                         exp := n / 1000 + 3600 } })
    ∨ (∃ codeRec,
        s.codes.get (jsStr r.code) = some codeRec
      ∧ codeRec.expiresAt < n
      ∧ (AuthServer.tokenEndpoint s r n t).1 = .err 400 "invalid_grant" (some "code expired")
      ∧ (AuthServer.tokenEndpoint s r n t).2 = { s with codes := s.codes.del (jsStr r.code) })
    ∨ ((AuthServer.tokenEndpoint s r n t).1.isOk = false
      ∧ (AuthServer.tokenEndpoint s r n t).2 = s) := by
  unfold AuthServer.tokenEndpoint
  by_cases hg : (r.grant_type != some "authorization_code") = true
  · right; right; simp [hg, AuthServer.TokenResult.isOk]
  · simp only [Bool.not_eq_true] at hg
    cases hc : s.clients.get (jsStr r.client_id) with
    | none => right; right; simp [hg, hc, AuthServer.TokenResult.isOk]
    | some client =>
      cases hsec : AuthServer.secretCheckFails client (jsOpt r.client_secret) with
      | true => right; right; simp [hg, hc, hsec, AuthServer.TokenResult.isOk]
      | false =>
        cases hcode : s.codes.get (jsStr r.code) with
        | none => right; right; simp [hg, hc, hsec, hcode, AuthServer.TokenResult.isOk]
        | some codeRec =>
          by_cases hexp : codeRec.expiresAt < n
          · right; left
            exact ⟨codeRec, rfl, hexp, by simp [hg, hc, hsec, hcode, hexp],
                   by simp [hg, hc, hsec, hcode, hexp]⟩
          · by_cases hcm : (codeRec.client_id != jsStr r.client_id) = true
            · right; right; simp [hg, hc, hsec, hcode, hexp, hcm, AuthServer.TokenResult.isOk]
            · simp only [Bool.not_eq_true] at hcm
              cases hrm : AuthServer.redirectMismatch codeRec (jsOpt r.redirect_uri) with
              | true =>
                  right; right
                  simp [hg, hc, hsec, hcode, hexp, hcm, hrm, AuthServer.TokenResult.isOk]
              | false =>
                cases hres : AuthServer.resourceMismatch codeRec (jsOpt r.resource) with
                | true =>
                    right; right
                    simp [hg, hc, hsec, hcode, hexp, hcm, hrm, hres, AuthServer.TokenResult.isOk]
                | false =>
                  cases hp : AuthServer.pkceFails codeRec (jsStr r.code_verifier) with
                  | true =>
                      right; right
                      simp [hg, hc, hsec, hcode, hexp, hcm, hrm, hres, hp,
                            AuthServer.TokenResult.isOk]
                  | false =>
                      left
                      exact ⟨codeRec, rfl, hexp,
                             by simp [hg, hc, hsec, hcode, hexp, hcm, hrm, hres, hp],
                             by simp [hg, hc, hsec, hcode, hexp, hcm, hrm, hres, hp]⟩

/-- C2: authorization codes are single-use: a successful /token exchange
consumed an unexpired stored code and deletes it from the store, and any
/token request presenting a code that is (no longer) in the store — in
particular one consumed by an earlier request, whether by successful
redemption or by expiry-triggered deletion — fails with the invalid_grant
error, provided the request passes the grant-type and client checks that
precede the code lookup. -/
theorem auth_code_single_use :
    (∀ (s : AuthServer.ServerState) (r : AuthServer.TokenRequest) (n : Nat) (t : String),
       (AuthServer.tokenEndpoint s r n t).1.isOk = true →
       ∃ codeRec, s.codes.get (jsStr r.code) = some codeRec
         ∧ ¬(codeRec.expiresAt < n)
         ∧ ((AuthServer.tokenEndpoint s r n t).2).codes.get (jsStr r.code) = none)
    ∧ (∀ (s : AuthServer.ServerState) (r : AuthServer.TokenRequest) (n : Nat) (t : String)
         (client : AuthServer.Client),
       s.codes.get (jsStr r.code) = none →
       r.grant_type = some "authorization_code" →
       s.clients.get (jsStr r.client_id) = some client →
       AuthServer.secretCheckFails client (jsOpt r.client_secret) = false →
       AuthServer.tokenEndpoint s r n t = (.err 400 "invalid_grant" (some "invalid code"), s)) := by
  constructor
  · intro s r n t h
    rcases tokenEndpoint_cases s r n t with
      ⟨codeRec, hcode, hexp, h1, h2⟩ | ⟨codeRec, hcode, hexp, h1, h2⟩ | ⟨h1, h2⟩
    · refine ⟨codeRec, hcode, hexp, ?_⟩
      rw [h2]
      exact SMap.get_del_self s.codes (jsStr r.code)
    · rw [h1] at h
      simp [AuthServer.TokenResult.isOk] at h
    · rw [h] at h1
      cases h1
  · intro s r n t client h1 h2 h3 h4
    unfold AuthServer.tokenEndpoint
    simp [h1, h2, h3, h4]

/-- Witness for C2: redeeming "code1" from the demo state succeeds and
removes it; presenting the same code again against the post-exchange state
fails with invalid_grant. -/
theorem auth_code_single_use_witness :
    (∃ codeRec, demoServerState.codes.get (jsStr demoTokenRequest.code) = some codeRec
       ∧ ¬(codeRec.expiresAt < 1000)
       ∧ ((AuthServer.tokenEndpoint demoServerState demoTokenRequest 1000 "tok1").2).codes.get
           (jsStr demoTokenRequest.code) = none)
    ∧ AuthServer.tokenEndpoint
        ((AuthServer.tokenEndpoint demoServerState demoTokenRequest 1000 "tok1").2)
        demoTokenRequest 2000 "tok2"
      = (.err 400 "invalid_grant" (some "invalid code"),
         (AuthServer.tokenEndpoint demoServerState demoTokenRequest 1000 "tok1").2) :=
  ⟨auth_code_single_use.1 demoServerState demoTokenRequest 1000 "tok1" (by decide),
   auth_code_single_use.2 ((AuthServer.tokenEndpoint demoServerState demoTokenRequest 1000 "tok1").2)
     demoTokenRequest 2000 "tok2" demoClient (by decide) rfl (by decide) (by decide)⟩

end OAuthDemo

namespace OAuthDemo

/-- Counterexample for C3: a code whose stored challenge equals the digest of
the empty verifier is NOT redeemable with the empty verifier — the exchange
fails with invalid_grant even though the base64url SHA-256 digest of the
submitted verifier equals the stored challenge, because the handler rejects a
falsy (empty) verifier before comparing digests.  This refutes the claimed
"succeeds if and only if digest(v) = c". -/
theorem pkce_empty_verifier_rejected :
    pkceChallengeFromVerifier (jsStr emptyVerifierTokenRequest.code_verifier)
      = emptyVerifierCodeRec.code_challenge
    ∧ (AuthServer.tokenEndpoint emptyVerifierState emptyVerifierTokenRequest 1000 "tok3").1
      = .err 400 "invalid_grant" (some "code_verifier mismatch") :=
  ⟨rfl, by decide⟩

/-- C3 (amended): with every other /token validation passing, the exchange
succeeds if and only if the submitted code_verifier is non-empty AND its
base64url-encoded SHA-256 digest equals the code's stored challenge; in
particular any change to the verifier that alters its digest (or empties it)
makes the exchange fail with invalid_grant. -/
theorem pkce_exact_match_amended :
    ∀ (s : AuthServer.ServerState) (r : AuthServer.TokenRequest) (n : Nat) (t : String)
      (client : AuthServer.Client) (codeRec : AuthServer.CodeRecord),
      r.grant_type = some "authorization_code" →
      s.clients.get (jsStr r.client_id) = some client →
      AuthServer.secretCheckFails client (jsOpt r.client_secret) = false →
      s.codes.get (jsStr r.code) = some codeRec →
      ¬(codeRec.expiresAt < n) →
      codeRec.client_id = jsStr r.client_id →
      AuthServer.redirectMismatch codeRec (jsOpt r.redirect_uri) = false →
      AuthServer.resourceMismatch codeRec (jsOpt r.resource) = false →
      ((AuthServer.tokenEndpoint s r n t).1.isOk = true
         ↔ jsStr r.code_verifier ≠ ""
           ∧ pkceChallengeFromVerifier (jsStr r.code_verifier) = codeRec.code_challenge)
      ∧ (AuthServer.pkceFails codeRec (jsStr r.code_verifier) = true →
         (AuthServer.tokenEndpoint s r n t).1
           = .err 400 "invalid_grant" (some "code_verifier mismatch")) := by
  intro s r n t client codeRec h1 h2 h3 h4 h5 h6 h7 h8
  have hred : AuthServer.tokenEndpoint s r n t
      = if AuthServer.pkceFails codeRec (jsStr r.code_verifier) = true
        then (.err 400 "invalid_grant" (some "code_verifier mismatch"), s)
        else (.ok t "bearer" 3600 (String.intercalate " " codeRec.scopes),
              { s with codes := s.codes.del (jsStr r.code),
                       tokens := s.tokens.set t
                         { token := t, client_id := jsStr r.client_id,
                           scopes := codeRec.scopes, resource := codeRec.resource,
                           exp := n / 1000 + 3600 } }) := by
    unfold AuthServer.tokenEndpoint
    simp [h1, h2, h3, h4, h5, h6, h7, h8]
  constructor
  · rw [hred]
    by_cases hp : AuthServer.pkceFails codeRec (jsStr r.code_verifier) = true
    · rw [if_pos hp]
      simp only [AuthServer.TokenResult.isOk]
      constructor
      · intro hfalse; cases hfalse
      · rintro ⟨hne, heq⟩
        exfalso
        simp [AuthServer.pkceFails, hne, heq] at hp
    · rw [if_neg hp]
      have hp' : AuthServer.pkceFails codeRec (jsStr r.code_verifier) = false := by
        simpa using hp
      simp only [AuthServer.pkceFails, Bool.or_eq_false_iff, beq_eq_false_iff_ne,
                 bne_eq_false_iff_eq, ne_eq] at hp'
      exact ⟨fun _ => ⟨hp'.1, hp'.2⟩, fun _ => rfl⟩
  · intro hp
    rw [hred, if_pos hp]

/-- Witness for C3 (amended): redeeming the demo code with the matching
verifier "ver" instantiates the equivalence, and the pkce-failure implication
is instantiated at the same input. -/
theorem pkce_exact_match_amended_witness :
    ((AuthServer.tokenEndpoint demoServerState demoTokenRequest 1000 "tok1").1.isOk = true
       ↔ jsStr demoTokenRequest.code_verifier ≠ ""
         ∧ pkceChallengeFromVerifier (jsStr demoTokenRequest.code_verifier)
             = demoCodeRec.code_challenge)
    ∧ (AuthServer.pkceFails demoCodeRec (jsStr demoTokenRequest.code_verifier) = true →
       (AuthServer.tokenEndpoint demoServerState demoTokenRequest 1000 "tok1").1
         = .err 400 "invalid_grant" (some "code_verifier mismatch")) :=
  pkce_exact_match_amended demoServerState demoTokenRequest 1000 "tok1" demoClient demoCodeRec
    rfl (by decide) (by decide) (by decide) (by decide) (by decide) (by decide) (by decide)

/-- C10: on every /token request the code store loses an entry only when the
referenced code's expiry has passed (the expiry-deletion path) or when the
exchange fully succeeds, and the token store gains an entry only when the
exchange fully succeeds; on every other validation failure the whole server
state — both stores included — is returned unchanged, so the referenced code
remains redeemable afterwards. -/
theorem token_exchange_store_discipline :
    ∀ (s : AuthServer.ServerState) (r : AuthServer.TokenRequest) (n : Nat) (t : String),
      (∃ codeRec tokenRec,
          (AuthServer.tokenEndpoint s r n t).1.isOk = true
        ∧ s.codes.get (jsStr r.code) = some codeRec
        ∧ ¬(codeRec.expiresAt < n)
        ∧ (AuthServer.tokenEndpoint s r n t).2.codes = s.codes.del (jsStr r.code)
        ∧ (AuthServer.tokenEndpoint s r n t).2.tokens = s.tokens.set t tokenRec)
      ∨ (∃ codeRec,
          s.codes.get (jsStr r.code) = some codeRec
        ∧ codeRec.expiresAt < n
        ∧ (AuthServer.tokenEndpoint s r n t).1 = .err 400 "invalid_grant" (some "code expired")
        ∧ (AuthServer.tokenEndpoint s r n t).2.codes = s.codes.del (jsStr r.code)
        ∧ (AuthServer.tokenEndpoint s r n t).2.tokens = s.tokens)
      ∨ ((AuthServer.tokenEndpoint s r n t).1.isOk = false
        ∧ (AuthServer.tokenEndpoint s r n t).2 = s) := by
  intro s r n t
  rcases tokenEndpoint_cases s r n t with
    ⟨codeRec, hcode, hexp, h1, h2⟩ | ⟨codeRec, hcode, hexp, h1, h2⟩ | ⟨h1, h2⟩
  · left
    refine ⟨codeRec,
            { token := t, client_id := jsStr r.client_id, scopes := codeRec.scopes,
              resource := codeRec.resource, exp := n / 1000 + 3600 },
            ?_, hcode, hexp, ?_, ?_⟩
    · rw [h1]; rfl
    · rw [h2]
    · rw [h2]
  · right; left
    exact ⟨codeRec, hcode, hexp, h1, by rw [h2], by rw [h2]⟩
  · right; right
    exact ⟨h1, h2⟩

end OAuthDemo
